import Mathlib

/-!
Shallow embedding of the colibri-vr Blender connector scripts.

This file embeds the four batch connector scripts of
`Runtime/ExternalConnectors/` (`Blender_CheckOBJMeshInfo.py`,
`Blender_ConvertPLYtoOBJ.py`, `Blender_SimplifyOBJ.py`,
`Blender_SmartUVProjectOBJ.py`) together with the shared module
`Blender_Core.py`, and proves the frozen claims about them.

Modelling decisions:
* The Blender host (`bpy`) is opaque: a `Host` record supplies the result of
  the import operators (the polygon counts of the objects a file yields), the
  host-chosen name and default settings of a freshly added modifier, and the
  effect of permanently applying a decimate / triangulate modifier on a
  polygon count.  Importers create fresh objects: identity rotation, empty
  modifier stack (Blender's OBJ/PLY importers create new objects and neither
  format stores modifiers or an object-level transform).
* A run of a script is a `RunOutcome`: the ordered list of observable
  `Event`s it performed (stdout/stderr line writes, `sys.path.append`, and
  every `bpy` operator call, plus an observation event at each read of
  `obj.modifiers[0]`) and an `Except`-style result — `Scene` and exit code on
  success, or the kind of uncaught Python exception.
* Angles are kept symbolic and exact: `Angle.radians d` is the value
  `math.radians(d)` for an integer number of degrees `d`; `Angle.zero` is the
  identity rotation component.  The decimal literal `0.0872665` from
  `Blender_SimplifyOBJ.py` is represented exactly as a scaled integer
  (`Decimal` with mantissa 872665 and exponent 7, i.e. 872665 / 10^7).
* Python's `sys.argv.index("--")` raises `ValueError` when absent,
  out-of-range subscripts raise `IndexError`, a missing collection key raises
  `KeyError`, and a failing `bpy` operator raises `RuntimeError`; all four
  surface as a `PyErr` result with no further events.
-/

namespace Colibri

/-- An exact decimal constant: the value `mantissa / 10 ^ exponent`.  Used for
the script literal `0.0872665` (mantissa 872665, exponent 7). -/
structure Decimal where
  mantissa : Int
  exponent : Nat
deriving DecidableEq, Repr

/-- The literal `0.0872665` assigned to `angle_limit` in
`Blender_SimplifyOBJ.py` (≈ 5 degrees in radians). -/
def simplifyAngleLimit : Decimal := ⟨872665, 7⟩

/-- A euler-rotation component as the scripts write it: the default `0.0`, or
`math.radians(d)` for an integer degree argument `d`. -/
inductive Angle where
  | zero : Angle
  | radians (degrees : Int) : Angle
deriving DecidableEq, Repr

/-- The modifier types the scripts pass to `bpy.ops.object.modifier_add`. -/
inductive ModifierType where
  | DECIMATE : ModifierType
  | TRIANGULATE : ModifierType
deriving DecidableEq, Repr

/-- One entry of an object's modifier stack.  The record is uniform over the
two modifier types; `decimate_type` and `angle_limit` are only ever written
and read on a `DECIMATE` modifier by the scripts. -/
structure Modifier where
  mtype : ModifierType
  name : String
  decimate_type : String
  angle_limit : Decimal
deriving DecidableEq, Repr

/-- One Blender object: the face count of its mesh data
(`len(obj.data.polygons)`), its euler rotation (three components), its
modifier stack, and its selection flag. -/
structure Obj where
  polygons : Nat
  rotation_euler : List Angle
  modifiers : List Modifier
  selected : Bool
deriving DecidableEq, Repr

/-- A freshly imported object: host-reported face count, identity rotation,
empty modifier stack, unselected. -/
def freshObj (n : Nat) : Obj :=
  { polygons := n, rotation_euler := [Angle.zero, Angle.zero, Angle.zero],
    modifiers := [], selected := false }

/-- The host's transient scene: `bpy.data.objects` as an ordered list, and
the index of `bpy.context.view_layer.objects.active` when one is set. -/
structure Scene where
  objs : List Obj
  active : Option Nat
deriving DecidableEq, Repr

/-- The opaque Blender host: what each import operator yields for a file (the
polygon counts of the created objects), the host-chosen name and default
settings of a freshly added modifier, and the effect on a polygon count of
permanently applying a decimate (given its settings) or triangulate
modifier. -/
structure Host where
  importOBJ : String → List Nat
  importPLY : String → List Nat
  modifierName : ModifierType → String
  defaultDecimateType : String
  defaultAngleLimit : Decimal
  decimate : String → Decimal → Nat → Nat
  triangulate : Nat → Nat

/-- The uncaught Python exception kinds the scripts can die with. -/
inductive PyErr where
  | valueError : PyErr
  | indexError : PyErr
  | keyError : PyErr
  | runtimeError : PyErr
deriving DecidableEq, Repr

/-- Observable events of a script run: line writes from `Blender_Core`,
`sys.path.append`, every `bpy` operator call and reference-level mutation,
and an observation of the modifier stack at each read of
`obj.modifiers[0]`. -/
inductive Event where
  | out (line : String) : Event
  | err (line : String) : Event
  | pathAppend (p : String) : Event
  | selectAll : Event
  | deleteAll : Event
  | importOBJ (path : String) : Event
  | importPLY (path : String) : Event
  | exportOBJ (path : String) : Event
  | setActive (i : Nat) : Event
  | modifierAdd (t : ModifierType) : Event
  | modifierApply (apply_as : String) (m : Modifier) : Event
  | readModifiers (mods : List Modifier) : Event
  | rotSet (axis : Nat) (a : Angle) : Event
  | modeSet (mode : String) : Event
  | meshSelectAll : Event
  | smartProject : Event
deriving DecidableEq, Repr

instance {ε α : Type} [DecidableEq ε] [DecidableEq α] : DecidableEq (Except ε α) :=
  fun a b =>
  match a, b with
  | .ok x, .ok y => decidable_of_iff (x = y) (by simp)
  | .error e, .error f => decidable_of_iff (e = f) (by simp)
  | .ok _, .error _ => isFalse (by simp)
  | .error _, .ok _ => isFalse (by simp)

/-- Outcome of one script run: the event trace, and either the final scene
with the `sys.exit` code, or the uncaught exception kind. -/
structure RunOutcome where
  events : List Event
  result : Except PyErr (Scene × Nat)
deriving DecidableEq, Repr

/-! `Blender_Core.py` -/

/-- `print_out(lineToWrite)`: one atomic line write + flush to stdout. -/
def print_out (lineToWrite : String) : List Event := [Event.out lineToWrite]

/-- `print_err(errorLine)`: one atomic line write + flush to stderr. -/
def print_err (errorLine : String) : List Event := [Event.err errorLine]

/-- `print_face_count(face_count)`: the machine-parseable marker line. -/
def print_face_count (face_count : Nat) : List Event :=
  print_out ("FACE_COUNT_OUTPUT:" ++ toString face_count)

/-- `bpy.ops.object.select_all(action='SELECT')`: select every object. -/
def select_all (s : Scene) : Scene :=
  { s with objs := s.objs.map (fun o => { o with selected := true }) }

/-- `bpy.ops.object.delete(use_global=False)`: remove the selected objects;
deleting clears the active-object reference (the scripts only delete after
selecting everything, so no index remapping is needed). -/
def delete_selected (s : Scene) : Scene :=
  { objs := s.objs.filter (fun o => !o.selected),
    active := if s.objs.any (fun o => o.selected) then none else s.active }

/-- `delete_all_on_start()`: when the scene holds at least one object, select
all and delete; otherwise do nothing. -/
def delete_all_on_start (s : Scene) : List Event × Scene :=
  if 0 < s.objs.length then
    ([Event.selectAll, Event.deleteAll], delete_selected (select_all s))
  else
    ([], s)

/-! Shared `bpy` operations used by the pipelines -/

/-- `bpy.ops.import_scene.obj(filepath=path)`: append the objects the host
reads from the file; freshly created objects carry default state. -/
def import_scene_obj (h : Host) (path : String) (s : Scene) :
    List Event × Scene :=
  ([Event.importOBJ path],
   { s with objs := s.objs ++ (h.importOBJ path).map freshObj })

/-- `bpy.ops.import_mesh.ply(filepath=path)`. -/
def import_mesh_ply (h : Host) (path : String) (s : Scene) :
    List Event × Scene :=
  ([Event.importPLY path],
   { s with objs := s.objs ++ (h.importPLY path).map freshObj })

/-- Update the object at a scene index in place (the Lean rendering of
mutating through a Python object reference). -/
def updateObjAt (s : Scene) (i : Nat) (f : Obj → Obj) : Scene :=
  match s.objs[i]? with
  | some o => { s with objs := s.objs.set i (f o) }
  | none => s

/-- The modifier `bpy.ops.object.modifier_add(type=t)` creates: requested
type, host-chosen name, host-default settings. -/
def newModifier (h : Host) (t : ModifierType) : Modifier :=
  { mtype := t, name := h.modifierName t,
    decimate_type := h.defaultDecimateType,
    angle_limit := h.defaultAngleLimit }

/-- `bpy.ops.object.modifier_add(type=t)`: append a fresh modifier to the
active object's stack; fails when there is no active object. -/
def modifier_add (h : Host) (t : ModifierType) (s : Scene) :
    Except PyErr (List Event × Scene) :=
  match s.active with
  | none => .error .runtimeError
  | some i =>
    match s.objs[i]? with
    | none => .error .runtimeError
    | some _ =>
      .ok ([Event.modifierAdd t],
           updateObjAt s i
             (fun o => { o with modifiers := o.modifiers ++ [newModifier h t] }))

/-- Rewrite the first modifier of a stack whose name matches (collection
indexing by key touches exactly one entry). -/
def setFirstModifier (ms : List Modifier) (name : String)
    (f : Modifier → Modifier) : List Modifier :=
  match ms with
  | [] => []
  | m :: rest =>
    if m.name == name then f m :: rest
    else m :: setFirstModifier rest name f

/-- `obj.modifiers[name].<field> = v` on the object at `objIdx`: a missing
key raises `KeyError`. -/
def modifiers_set (s : Scene) (objIdx : Nat) (name : String)
    (f : Modifier → Modifier) : Except PyErr Scene :=
  match s.objs[objIdx]? with
  | none => .error .runtimeError
  | some o =>
    if o.modifiers.any (fun m => m.name == name) then
      .ok (updateObjAt s objIdx
        (fun o2 => { o2 with modifiers := setFirstModifier o2.modifiers name f }))
    else .error .keyError

/-- The permanent effect of applying a modifier to the active object's mesh
data, as a function of the face count (host-owned geometry). -/
def applyModifierEffect (h : Host) (m : Modifier) (n : Nat) : Nat :=
  match m.mtype with
  | .DECIMATE => h.decimate m.decimate_type m.angle_limit n
  | .TRIANGULATE => h.triangulate n

/-- `bpy.ops.object.modifier_apply(apply_as=..., modifier=name)`: apply the
named modifier of the active object permanently to its mesh data and remove
it from the stack; fails when there is no active object or no such
modifier. -/
def modifier_apply (h : Host) (apply_as : String) (name : String) (s : Scene) :
    Except PyErr (List Event × Scene) :=
  match s.active with
  | none => .error .runtimeError
  | some i =>
    match s.objs[i]? with
    | none => .error .runtimeError
    | some o =>
      match o.modifiers.find? (fun m => m.name == name) with
      | none => .error .runtimeError
      | some m =>
        .ok ([Event.modifierApply apply_as m],
             updateObjAt s i
               (fun o2 =>
                 { o2 with
                   polygons := applyModifierEffect h m o2.polygons,
                   modifiers := o2.modifiers.eraseP (fun m2 => m2.name == name) }))

/-- `obj.rotation_euler[axis] = a` through a reference to the object at
`objIdx`. -/
def set_rotation_euler (s : Scene) (objIdx : Nat) (axis : Nat) (a : Angle) :
    List Event × Scene :=
  ([Event.rotSet axis a],
   updateObjAt s objIdx
     (fun o => { o with rotation_euler := o.rotation_euler.set axis a }))

/-- `bpy.ops.object.mode_set(mode=mode)`: needs an active object. -/
def mode_set (mode : String) (s : Scene) : Except PyErr (List Event) :=
  match s.active with
  | none => .error .runtimeError
  | some _ => .ok [Event.modeSet mode]

/-! Argument convention (`sys.argv.index("--")` and slicing) -/

/-- `sys.argv[sys.argv.index("--") + 1:]`: everything strictly after the
first occurrence of the separator token; `None` when `index` would raise
`ValueError`. -/
def connectorArgv (sysArgv : List String) : Option (List String) :=
  (sysArgv.findIdx? (fun x => x == "--")).map (fun i => sysArgv.drop (i + 1))

/-! `Blender_CheckOBJMeshInfo.py` (Inspect) -/

/-- The Inspect connector: module-level `sys.path.append(argv[0])`, then
`main()` — re-slice argv, read `argv[1]`, reset, import OBJ, read the face
count of `objects[0]`, emit the marker and the info line, `sys.exit(0)`. -/
def inspectScript (sysArgv : List String) (h : Host) (s : Scene) : RunOutcome :=
  match connectorArgv sysArgv with
  | none => ⟨[], .error .valueError⟩
  | some argv =>
  match argv[0]? with
  | none => ⟨[], .error .indexError⟩
  | some module_path =>
  let ev0 := [Event.pathAppend module_path]
  match argv[1]? with
  | none => ⟨ev0, .error .indexError⟩
  | some input_file_path =>
  let d := delete_all_on_start s
  let im := import_scene_obj h input_file_path d.2
  let ev1 := ev0 ++ d.1 ++ im.1
  match im.2.objs[0]? with
  | none => ⟨ev1, .error .indexError⟩
  | some global_obj =>
  let face_count := global_obj.polygons
  ⟨ev1 ++ print_face_count face_count
       ++ print_out ("Mesh currently has " ++ toString face_count ++ " faces."),
   .ok (im.2, 0)⟩

/-! `Blender_ConvertPLYtoOBJ.py` (Convert) -/

/-- The Convert connector: slice argv, read `argv[1]` and `argv[2]`, reset,
then import PLY, read the face count of `objects[0]`, emit the marker, set
`rotation_euler[0] = radians(-90)` and `rotation_euler[2] = radians(180)`,
export OBJ, `sys.exit(0)`. -/
def convertScript (sysArgv : List String) (h : Host) (s : Scene) : RunOutcome :=
  match connectorArgv sysArgv with
  | none => ⟨[], .error .valueError⟩
  | some argv =>
  match argv[0]? with
  | none => ⟨[], .error .indexError⟩
  | some module_path =>
  let ev0 := [Event.pathAppend module_path]
  match argv[1]? with
  | none => ⟨ev0, .error .indexError⟩
  | some input_file_path =>
  match argv[2]? with
  | none => ⟨ev0, .error .indexError⟩
  | some output_file_path =>
  let d := delete_all_on_start s
  let ev1 := ev0 ++ d.1
           ++ print_out ("Importing mesh from " ++ input_file_path ++ ".")
  let im := import_mesh_ply h input_file_path d.2
  let ev2 := ev1 ++ im.1
  match im.2.objs[0]? with
  | none => ⟨ev2, .error .indexError⟩
  | some global_obj =>
  let face_count := global_obj.polygons
  let ev3 := ev2 ++ print_face_count face_count
                 ++ print_out "Rotating mesh."
  let r0 := set_rotation_euler im.2 0 0 (Angle.radians (-90))
  let r2 := set_rotation_euler r0.2 0 2 (Angle.radians 180)
  let ev4 := ev3 ++ r0.1 ++ r2.1
           ++ print_out ("Exporting mesh to " ++ output_file_path ++ ".")
           ++ [Event.exportOBJ output_file_path]
           ++ print_out ("Finished operation. Mesh can be found at "
                          ++ output_file_path ++ ".")
  ⟨ev4, .ok (r2.2, 0)⟩

/-! `Blender_SimplifyOBJ.py` (Simplify) -/

/-- The Simplify connector: slice argv, read `argv[1]` and `argv[2]`, reset,
then import OBJ, make `objects[0]` active, read the original face count, add a
decimate modifier, read `modifiers[0]`, set `decimate_type = 'DISSOLVE'` and
`angle_limit = 0.0872665`, apply it as DATA, add a triangulate modifier, read
`modifiers[0]`, apply it as DATA, read the new face count, print the
before/after info line then the marker, export OBJ, `sys.exit(0)`. -/
def simplifyScript (sysArgv : List String) (h : Host) (s : Scene) : RunOutcome :=
  match connectorArgv sysArgv with
  | none => ⟨[], .error .valueError⟩
  | some argv =>
  match argv[0]? with
  | none => ⟨[], .error .indexError⟩
  | some module_path =>
  let ev0 := [Event.pathAppend module_path]
  match argv[1]? with
  | none => ⟨ev0, .error .indexError⟩
  | some input_file_path =>
  match argv[2]? with
  | none => ⟨ev0, .error .indexError⟩
  | some output_file_path =>
  let d := delete_all_on_start s
  let im := import_scene_obj h input_file_path d.2
  let ev1 := ev0 ++ d.1 ++ im.1
  match im.2.objs[0]? with
  | none => ⟨ev1, .error .indexError⟩
  | some global_obj =>
  let s2 : Scene := { im.2 with active := some 0 }
  let ev2 := ev1 ++ [Event.setActive 0]
  let original_face_count := global_obj.polygons
  match modifier_add h .DECIMATE s2 with
  | .error e => ⟨ev2, .error e⟩
  | .ok (evA, s3) =>
  let ev3 := ev2 ++ evA
  match s3.objs[0]? with
  | none => ⟨ev3, .error .runtimeError⟩
  | some o3 =>
  let ev4 := ev3 ++ [Event.readModifiers o3.modifiers]
  match o3.modifiers[0]? with
  | none => ⟨ev4, .error .indexError⟩
  | some decimate_modifier =>
  match modifiers_set s3 0 decimate_modifier.name
          (fun m => { m with decimate_type := "DISSOLVE" }) with
  | .error e => ⟨ev4, .error e⟩
  | .ok s4 =>
  match modifiers_set s4 0 decimate_modifier.name
          (fun m => { m with angle_limit := simplifyAngleLimit }) with
  | .error e => ⟨ev4, .error e⟩
  | .ok s5 =>
  match modifier_apply h "DATA" decimate_modifier.name s5 with
  | .error e => ⟨ev4, .error e⟩
  | .ok (evB, s6) =>
  let ev5 := ev4 ++ evB
  match modifier_add h .TRIANGULATE s6 with
  | .error e => ⟨ev5, .error e⟩
  | .ok (evC, s7) =>
  let ev6 := ev5 ++ evC
  match s7.objs[0]? with
  | none => ⟨ev6, .error .runtimeError⟩
  | some o7 =>
  let ev7 := ev6 ++ [Event.readModifiers o7.modifiers]
  match o7.modifiers[0]? with
  | none => ⟨ev7, .error .indexError⟩
  | some triangulate_modifier =>
  match modifier_apply h "DATA" triangulate_modifier.name s7 with
  | .error e => ⟨ev7, .error e⟩
  | .ok (evD, s8) =>
  let ev8 := ev7 ++ evD
  match s8.objs[0]? with
  | none => ⟨ev8, .error .runtimeError⟩
  | some o8 =>
  let new_face_count := o8.polygons
  let ev9 := ev8
    ++ print_out ("Decimated mesh from " ++ toString original_face_count
                   ++ " to " ++ toString new_face_count ++ " faces.")
    ++ print_face_count new_face_count
    ++ [Event.exportOBJ output_file_path]
    ++ print_out ("Finished operation. Mesh can be found at "
                   ++ output_file_path ++ ".")
  ⟨ev9, .ok (s8, 0)⟩

/-! `Blender_SmartUVProjectOBJ.py` (UV-Unwrap) -/

/-- The UV-Unwrap connector: slice argv, read `argv[1]` and `argv[2]`, reset,
then import OBJ, make `objects[0]` active, enter EDIT mode, select all, run
Smart UV Project, return to OBJECT mode, export OBJ, `sys.exit(0)`.  It
never calls `print_face_count`. -/
def uvProjectScript (sysArgv : List String) (h : Host) (s : Scene) : RunOutcome :=
  match connectorArgv sysArgv with
  | none => ⟨[], .error .valueError⟩
  | some argv =>
  match argv[0]? with
  | none => ⟨[], .error .indexError⟩
  | some module_path =>
  let ev0 := [Event.pathAppend module_path]
  match argv[1]? with
  | none => ⟨ev0, .error .indexError⟩
  | some input_file_path =>
  match argv[2]? with
  | none => ⟨ev0, .error .indexError⟩
  | some output_file_path =>
  let d := delete_all_on_start s
  let ev1 := ev0 ++ d.1
           ++ print_out ("Importing mesh from " ++ input_file_path ++ ".")
  let im := import_scene_obj h input_file_path d.2
  let ev2 := ev1 ++ im.1
  match im.2.objs[0]? with
  | none => ⟨ev2, .error .indexError⟩
  | some _obj =>
  let s2 : Scene := { im.2 with active := some 0 }
  let ev3 := ev2 ++ [Event.setActive 0]
  match mode_set "EDIT" s2 with
  | .error e => ⟨ev3, .error e⟩
  | .ok evE =>
  let ev4 := ev3 ++ evE ++ [Event.meshSelectAll]
           ++ print_out "Applying the Smart UV Project algorithm."
           ++ [Event.smartProject]
  match mode_set "OBJECT" s2 with
  | .error e => ⟨ev4, .error e⟩
  | .ok evO =>
  let ev5 := ev4 ++ evO
           ++ print_out ("Exporting mesh to " ++ output_file_path ++ ".")
           ++ [Event.exportOBJ output_file_path]
  ⟨ev5, .ok (s2, 0)⟩

/-! Observations on traces -/

/-- The standard-output lines of a trace, in order. -/
def stdoutLines : List Event → List String
  | [] => []
  | Event.out l :: t => l :: stdoutLines t
  | _ :: t => stdoutLines t

/-- The fixed prefix of the machine-parseable marker line. -/
def markerPrefix : String := "FACE_COUNT_OUTPUT:"

/-- Whether a line carries the marker prefix. -/
def isMarkerLine (l : String) : Bool :=
  markerPrefix.data.isPrefixOf l.data

/-- The marker lines of a trace, in order. -/
def markerLines (evs : List Event) : List String :=
  (stdoutLines evs).filter isMarkerLine

/-- Events that run a host import operator. -/
def isImportEvent (e : Event) : Bool :=
  match e with
  | .importOBJ _ => true
  | .importPLY _ => true
  | _ => false

/-- Events that write a file (the only filesystem-writing operation in the
scripts' vocabulary is the OBJ exporter). -/
def isExportEvent (e : Event) : Bool :=
  match e with
  | .exportOBJ _ => true
  | _ => false

/-- Events that transform the mesh or scene geometry: adding or applying a
modifier, writing a rotation component, or running Smart UV Project. -/
def isTransformEvent (e : Event) : Bool :=
  match e with
  | .modifierAdd _ => true
  | .modifierApply _ _ => true
  | .rotSet _ _ => true
  | .smartProject => true
  | _ => false

/-- Events recording a read of `obj.modifiers[0]`. -/
def isReadModifiersEvent (e : Event) : Bool :=
  match e with
  | .readModifiers _ => true
  | _ => false

/-- Events recording `sys.path.append`. -/
def isPathAppendEvent (e : Event) : Bool :=
  match e with
  | .pathAppend _ => true
  | _ => false

/-- Events writing a rotation component. -/
def isRotSetEvent (e : Event) : Bool :=
  match e with
  | .rotSet _ _ => true
  | _ => false

/-- Whether a run result is a normal termination. -/
def resultOk (r : Except PyErr (Scene × Nat)) : Bool :=
  match r with
  | .ok _ => true
  | .error _ => false

/-! Prefix lemmas for classifying the emitted lines -/

theorem isPrefixOf_append_self (p y : List Char) : p.isPrefixOf (p ++ y) = true := by
  rw [List.isPrefixOf_iff_prefix]
  exact List.prefix_append p y

theorem not_prefix_of_append {p x : List Char} (y : List Char)
    (hlen : p.length ≤ x.length) (hpx : ¬ p <+: x) : ¬ p <+: (x ++ y) := by
  intro hpxy
  apply hpx
  have h1 : p = (x ++ y).take p.length := List.prefix_iff_eq_take.mp hpxy
  rw [List.take_append_of_le_length hlen] at h1
  exact h1 ▸ List.take_prefix _ _

theorem isPrefixOf_append_eq_false {p x : List Char} (y : List Char)
    (hlen : p.length ≤ x.length) (hpx : p.isPrefixOf x = false) :
    p.isPrefixOf (x ++ y) = false := by
  rw [← Bool.not_eq_true, List.isPrefixOf_iff_prefix]
  apply not_prefix_of_append y hlen
  rw [← List.isPrefixOf_iff_prefix, hpx]
  exact Bool.false_ne_true

@[simp] theorem string_append_assoc (a b c : String) : a ++ b ++ c = a ++ (b ++ c) := by
  apply String.ext
  simp [String.data_append]

theorem isMarkerLine_head_false (hd : String) (x : String)
    (hlen : markerPrefix.data.length ≤ hd.data.length)
    (hpx : markerPrefix.data.isPrefixOf hd.data = false) :
    isMarkerLine (hd ++ x) = false := by
  simp only [isMarkerLine, String.data_append]
  exact isPrefixOf_append_eq_false _ hlen hpx

@[simp] theorem isMarkerLine_marker (x : String) :
    isMarkerLine ("FACE_COUNT_OUTPUT:" ++ x) = true := by
  simp only [isMarkerLine, markerPrefix, String.data_append]
  exact isPrefixOf_append_self _ _

@[simp] theorem isMarkerLine_mesh_currently (x : String) :
    isMarkerLine ("Mesh currently has " ++ x) = false :=
  isMarkerLine_head_false _ _ (by decide) (by decide)

@[simp] theorem isMarkerLine_importing (x : String) :
    isMarkerLine ("Importing mesh from " ++ x) = false :=
  isMarkerLine_head_false _ _ (by decide) (by decide)

@[simp] theorem isMarkerLine_rotating :
    isMarkerLine "Rotating mesh." = false := by decide

@[simp] theorem isMarkerLine_exporting (x : String) :
    isMarkerLine ("Exporting mesh to " ++ x) = false :=
  isMarkerLine_head_false _ _ (by decide) (by decide)

@[simp] theorem isMarkerLine_finished (x : String) :
    isMarkerLine ("Finished operation. Mesh can be found at " ++ x) = false :=
  isMarkerLine_head_false _ _ (by decide) (by decide)

@[simp] theorem isMarkerLine_decimated (x : String) :
    isMarkerLine ("Decimated mesh from " ++ x) = false :=
  isMarkerLine_head_false _ _ (by decide) (by decide)

@[simp] theorem isMarkerLine_smartuv :
    isMarkerLine "Applying the Smart UV Project algorithm." = false := by decide

/-! Reset lemmas -/

@[simp] theorem reset_objs_nil (s : Scene) : (delete_all_on_start s).2.objs = [] := by
  unfold delete_all_on_start
  split
  · show (delete_selected (select_all s)).objs = []
    unfold delete_selected select_all
    simp
  · next hlen =>
    simp only [Nat.not_lt, Nat.le_zero, List.length_eq_zero] at hlen
    exact hlen

theorem reset_events_cases (s : Scene) :
    (delete_all_on_start s).1 = [] ∨
    (delete_all_on_start s).1 = [Event.selectAll, Event.deleteAll] := by
  unfold delete_all_on_start
  split
  · right; rfl
  · left; rfl

@[simp] theorem stdoutLines_reset (s : Scene) :
    stdoutLines (delete_all_on_start s).1 = [] := by
  rcases reset_events_cases s with h | h <;> rw [h] <;> rfl

/-! Success-shape lemmas -/

theorem inspectScript_ok_shape (a : List String) (h : Host) (s : Scene)
    (s' : Scene) (c : Nat)
    (hok : (inspectScript a h s).result = Except.ok (s', c)) :
    ∃ argv module_path input_file_path n rest,
      connectorArgv a = some argv ∧
      argv[0]? = some module_path ∧
      argv[1]? = some input_file_path ∧
      h.importOBJ input_file_path = n :: rest ∧
      c = 0 ∧
      s'.objs = freshObj n :: rest.map freshObj ∧
      (inspectScript a h s).events =
        Event.pathAppend module_path ::
          ((delete_all_on_start s).1 ++
            [Event.importOBJ input_file_path,
             Event.out ("FACE_COUNT_OUTPUT:" ++ toString n),
             Event.out ("Mesh currently has " ++ toString n ++ " faces.")]) := by
  cases hc : connectorArgv a with
  | none => simp [inspectScript, hc] at hok
  | some argv =>
  cases h0 : argv[0]? with
  | none => simp [inspectScript, hc, h0] at hok
  | some module_path =>
  cases h1 : argv[1]? with
  | none => simp [inspectScript, hc, h0, h1] at hok
  | some input_file_path =>
  cases himp : h.importOBJ input_file_path with
  | nil => simp [inspectScript, hc, h0, h1, import_scene_obj, himp] at hok
  | cons n rest =>
    refine ⟨argv, module_path, input_file_path, n, rest, rfl, h0, h1, himp, ?_, ?_, ?_⟩
    · simp [inspectScript, hc, h0, h1, import_scene_obj, himp] at hok
      exact hok.2.symm
    · simp [inspectScript, hc, h0, h1, import_scene_obj, himp] at hok
      rw [← hok.1]
    · simp [inspectScript, hc, h0, h1, import_scene_obj, himp, print_face_count,
        print_out, freshObj]

theorem convertScript_ok_shape (a : List String) (h : Host) (s : Scene)
    (s' : Scene) (c : Nat)
    (hok : (convertScript a h s).result = Except.ok (s', c)) :
    ∃ argv module_path input_file_path output_file_path n rest,
      connectorArgv a = some argv ∧
      argv[0]? = some module_path ∧
      argv[1]? = some input_file_path ∧
      argv[2]? = some output_file_path ∧
      h.importPLY input_file_path = n :: rest ∧
      c = 0 ∧
      s'.objs =
        { polygons := n,
          rotation_euler := [Angle.radians (-90), Angle.zero, Angle.radians 180],
          modifiers := [], selected := false } :: rest.map freshObj ∧
      (convertScript a h s).events =
        Event.pathAppend module_path ::
          ((delete_all_on_start s).1 ++
            [Event.out ("Importing mesh from " ++ input_file_path ++ "."),
             Event.importPLY input_file_path,
             Event.out ("FACE_COUNT_OUTPUT:" ++ toString n),
             Event.out "Rotating mesh.",
             Event.rotSet 0 (Angle.radians (-90)),
             Event.rotSet 2 (Angle.radians 180),
             Event.out ("Exporting mesh to " ++ output_file_path ++ "."),
             Event.exportOBJ output_file_path,
             Event.out ("Finished operation. Mesh can be found at "
                         ++ output_file_path ++ ".")]) := by
  cases hc : connectorArgv a with
  | none => simp [convertScript, hc] at hok
  | some argv =>
  cases h0 : argv[0]? with
  | none => simp [convertScript, hc, h0] at hok
  | some module_path =>
  cases h1 : argv[1]? with
  | none => simp [convertScript, hc, h0, h1] at hok
  | some input_file_path =>
  cases h2 : argv[2]? with
  | none => simp [convertScript, hc, h0, h1, h2] at hok
  | some output_file_path =>
  cases himp : h.importPLY input_file_path with
  | nil => simp [convertScript, hc, h0, h1, h2, import_mesh_ply, himp] at hok
  | cons n rest =>
    refine ⟨argv, module_path, input_file_path, output_file_path, n, rest,
      rfl, h0, h1, h2, himp, ?_, ?_, ?_⟩
    · simp [convertScript, hc, h0, h1, h2, import_mesh_ply, himp,
        set_rotation_euler, updateObjAt, freshObj] at hok
      exact hok.2.symm
    · simp [convertScript, hc, h0, h1, h2, import_mesh_ply, himp,
        set_rotation_euler, updateObjAt, freshObj] at hok
      rw [← hok.1]
    · simp [convertScript, hc, h0, h1, h2, import_mesh_ply, himp,
        set_rotation_euler, updateObjAt, freshObj, print_face_count, print_out]

theorem simplifyScript_ok_shape (a : List String) (h : Host) (s : Scene)
    (s' : Scene) (c : Nat)
    (hok : (simplifyScript a h s).result = Except.ok (s', c)) :
    ∃ argv module_path input_file_path output_file_path n rest,
      connectorArgv a = some argv ∧
      argv[0]? = some module_path ∧
      argv[1]? = some input_file_path ∧
      argv[2]? = some output_file_path ∧
      h.importOBJ input_file_path = n :: rest ∧
      c = 0 ∧
      s'.objs =
        { polygons := h.triangulate (h.decimate "DISSOLVE" simplifyAngleLimit n),
          rotation_euler := [Angle.zero, Angle.zero, Angle.zero],
          modifiers := [], selected := false } :: rest.map freshObj ∧
      (simplifyScript a h s).events =
        Event.pathAppend module_path ::
          ((delete_all_on_start s).1 ++
            [Event.importOBJ input_file_path,
             Event.setActive 0,
             Event.modifierAdd ModifierType.DECIMATE,
             Event.readModifiers [newModifier h ModifierType.DECIMATE],
             Event.modifierApply "DATA"
               { mtype := ModifierType.DECIMATE,
                 name := h.modifierName ModifierType.DECIMATE,
                 decimate_type := "DISSOLVE",
                 angle_limit := simplifyAngleLimit },
             Event.modifierAdd ModifierType.TRIANGULATE,
             Event.readModifiers [newModifier h ModifierType.TRIANGULATE],
             Event.modifierApply "DATA" (newModifier h ModifierType.TRIANGULATE),
             Event.out ("Decimated mesh from " ++ toString n ++ " to "
               ++ toString (h.triangulate (h.decimate "DISSOLVE" simplifyAngleLimit n))
               ++ " faces."),
             Event.out ("FACE_COUNT_OUTPUT:"
               ++ toString (h.triangulate (h.decimate "DISSOLVE" simplifyAngleLimit n))),
             Event.exportOBJ output_file_path,
             Event.out ("Finished operation. Mesh can be found at "
                         ++ output_file_path ++ ".")]) := by
  cases hc : connectorArgv a with
  | none => simp [simplifyScript, hc] at hok
  | some argv =>
  cases h0 : argv[0]? with
  | none => simp [simplifyScript, hc, h0] at hok
  | some module_path =>
  cases h1 : argv[1]? with
  | none => simp [simplifyScript, hc, h0, h1] at hok
  | some input_file_path =>
  cases h2 : argv[2]? with
  | none => simp [simplifyScript, hc, h0, h1, h2] at hok
  | some output_file_path =>
  cases himp : h.importOBJ input_file_path with
  | nil => simp [simplifyScript, hc, h0, h1, h2, import_scene_obj, himp] at hok
  | cons n rest =>
    refine ⟨argv, module_path, input_file_path, output_file_path, n, rest,
      rfl, h0, h1, h2, himp, ?_, ?_, ?_⟩
    · simp [simplifyScript, hc, h0, h1, h2, import_scene_obj, himp,
        modifier_add, modifier_apply, modifiers_set, setFirstModifier,
        updateObjAt, newModifier, applyModifierEffect, freshObj,
        print_face_count, print_out] at hok
      exact hok.2.symm
    · simp [simplifyScript, hc, h0, h1, h2, import_scene_obj, himp,
        modifier_add, modifier_apply, modifiers_set, setFirstModifier,
        updateObjAt, newModifier, applyModifierEffect, freshObj,
        print_face_count, print_out] at hok
      rw [← hok.1]
    · simp [simplifyScript, hc, h0, h1, h2, import_scene_obj, himp,
        modifier_add, modifier_apply, modifiers_set, setFirstModifier,
        updateObjAt, newModifier, applyModifierEffect, freshObj,
        print_face_count, print_out]

theorem uvProjectScript_ok_shape (a : List String) (h : Host) (s : Scene)
    (s' : Scene) (c : Nat)
    (hok : (uvProjectScript a h s).result = Except.ok (s', c)) :
    ∃ argv module_path input_file_path output_file_path n rest,
      connectorArgv a = some argv ∧
      argv[0]? = some module_path ∧
      argv[1]? = some input_file_path ∧
      argv[2]? = some output_file_path ∧
      h.importOBJ input_file_path = n :: rest ∧
      c = 0 ∧
      s'.objs = freshObj n :: rest.map freshObj ∧
      (uvProjectScript a h s).events =
        Event.pathAppend module_path ::
          ((delete_all_on_start s).1 ++
            [Event.out ("Importing mesh from " ++ input_file_path ++ "."),
             Event.importOBJ input_file_path,
             Event.setActive 0,
             Event.modeSet "EDIT",
             Event.meshSelectAll,
             Event.out "Applying the Smart UV Project algorithm.",
             Event.smartProject,
             Event.modeSet "OBJECT",
             Event.out ("Exporting mesh to " ++ output_file_path ++ "."),
             Event.exportOBJ output_file_path]) := by
  cases hc : connectorArgv a with
  | none => simp [uvProjectScript, hc] at hok
  | some argv =>
  cases h0 : argv[0]? with
  | none => simp [uvProjectScript, hc, h0] at hok
  | some module_path =>
  cases h1 : argv[1]? with
  | none => simp [uvProjectScript, hc, h0, h1] at hok
  | some input_file_path =>
  cases h2 : argv[2]? with
  | none => simp [uvProjectScript, hc, h0, h1, h2] at hok
  | some output_file_path =>
  cases himp : h.importOBJ input_file_path with
  | nil => simp [uvProjectScript, hc, h0, h1, h2, import_scene_obj, himp] at hok
  | cons n rest =>
    refine ⟨argv, module_path, input_file_path, output_file_path, n, rest,
      rfl, h0, h1, h2, himp, ?_, ?_, ?_⟩
    · simp [uvProjectScript, hc, h0, h1, h2, import_scene_obj, himp, mode_set] at hok
      exact hok.2.symm
    · simp [uvProjectScript, hc, h0, h1, h2, import_scene_obj, himp, mode_set] at hok
      rw [← hok.1]
    · simp [uvProjectScript, hc, h0, h1, h2, import_scene_obj, himp, mode_set,
        print_out, freshObj]

@[simp] theorem stdoutLines_append (x y : List Event) :
    stdoutLines (x ++ y) = stdoutLines x ++ stdoutLines y := by
  induction x with
  | nil => rfl
  | cons e t ih => cases e <;> simp [stdoutLines, ih]

theorem reset_filter_eq_nil (s : Scene) (pred : Event → Bool)
    (h1 : pred Event.selectAll = false) (h2 : pred Event.deleteAll = false) :
    (delete_all_on_start s).1.filter pred = [] := by
  rcases reset_events_cases s with h | h <;> rw [h] <;> simp [h1, h2]

theorem findIdx?_sep_spec : ∀ (l : List String) (i : Nat), "--" ∈ l →
    ∃ k, l.findIdx? (fun x => x == "--") i = some (i + k) ∧ l[k]? = some "--" ∧
      ∀ j, j < k → l[j]? ≠ some "--"
  | [], _, hmem => absurd hmem (by simp)
  | x :: t, i, hmem => by
    by_cases hx : x = "--"
    · refine ⟨0, ?_, ?_, ?_⟩
      · simp [List.findIdx?_cons, hx]
      · simp [hx]
      · intro j hj; omega
    · have hmem2 : "--" ∈ t := by
        cases hmem with
        | head => exact absurd rfl hx
        | tail _ hmem3 => exact hmem3
      obtain ⟨k, hf, hg, hlt⟩ := findIdx?_sep_spec t (i + 1) hmem2
      have hxbeq : (x == "--") = false := by simp [hx]
      refine ⟨k + 1, ?_, ?_, ?_⟩
      · simp only [List.findIdx?_cons, hxbeq, Bool.false_eq_true, if_false, hf,
          Option.some.injEq]
        omega
      · simpa using hg
      · intro j hj
        cases j with
        | zero => simp [hx]
        | succ j2 =>
          have := hlt j2 (by omega)
          simpa using this

/-! Claim theorems -/

/-- C2: for every starting scene, the bootstrap reset `delete_all_on_start`
leaves zero objects; when the scene is already empty it performs no select or
delete operation and leaves everything untouched; and it is idempotent. -/
theorem C2_reset_empties_scene (s : Scene) :
    (delete_all_on_start s).2.objs = [] ∧
    (s.objs = [] → delete_all_on_start s = ([], s)) ∧
    delete_all_on_start (delete_all_on_start s).2 = ([], (delete_all_on_start s).2) := by
  refine ⟨reset_objs_nil s, ?_, ?_⟩
  · intro hemp
    unfold delete_all_on_start
    simp [hemp]
  · conv_lhs => rw [delete_all_on_start]
    simp

/-- C2 witness: the reset applied to a concrete already-empty scene performs
no operation. -/
theorem C2_reset_empties_scene_witness :
    (Scene.mk [] none).objs = [] ∧
    delete_all_on_start (Scene.mk [] none) = ([], Scene.mk [] none) :=
  ⟨rfl, (C2_reset_empties_scene (Scene.mk [] none)).2.1 rfl⟩

/-- C1: every successful Inspect, Convert and Simplify run writes exactly one
stdout line with the `FACE_COUNT_OUTPUT:` prefix, and that line is the prefix
followed by the decimal face count of object 0; a successful UV-Unwrap run
writes no line with that prefix. -/
theorem C1_marker_protocol :
    (∀ a h s s' c, (inspectScript a h s).result = Except.ok (s', c) →
      ∃ n : Nat,
        markerLines (inspectScript a h s).events
          = ["FACE_COUNT_OUTPUT:" ++ toString n] ∧
        (s'.objs[0]?).map Obj.polygons = some n) ∧
    (∀ a h s s' c, (convertScript a h s).result = Except.ok (s', c) →
      ∃ n : Nat,
        markerLines (convertScript a h s).events
          = ["FACE_COUNT_OUTPUT:" ++ toString n] ∧
        (s'.objs[0]?).map Obj.polygons = some n) ∧
    (∀ a h s s' c, (simplifyScript a h s).result = Except.ok (s', c) →
      ∃ n : Nat,
        markerLines (simplifyScript a h s).events
          = ["FACE_COUNT_OUTPUT:" ++ toString n] ∧
        (s'.objs[0]?).map Obj.polygons = some n) ∧
    (∀ a h s s' c, (uvProjectScript a h s).result = Except.ok (s', c) →
      markerLines (uvProjectScript a h s).events = []) := by
  refine ⟨?_, ?_, ?_, ?_⟩
  · intro a h s s' c hok
    obtain ⟨argv, m, p, n, rest, hca, h0, h1, himp, hc0, hobjs, hev⟩ :=
      inspectScript_ok_shape a h s s' c hok
    refine ⟨n, ?_, ?_⟩
    · rw [hev]; simp [markerLines, stdoutLines]
    · rw [hobjs]; simp [freshObj]
  · intro a h s s' c hok
    obtain ⟨argv, m, p, q, n, rest, hca, h0, h1, h2, himp, hc0, hobjs, hev⟩ :=
      convertScript_ok_shape a h s s' c hok
    refine ⟨n, ?_, ?_⟩
    · rw [hev]; simp [markerLines, stdoutLines]
    · rw [hobjs]; simp
  · intro a h s s' c hok
    obtain ⟨argv, m, p, q, n, rest, hca, h0, h1, h2, himp, hc0, hobjs, hev⟩ :=
      simplifyScript_ok_shape a h s s' c hok
    refine ⟨h.triangulate (h.decimate "DISSOLVE" simplifyAngleLimit n), ?_, ?_⟩
    · rw [hev]; simp [markerLines, stdoutLines]
    · rw [hobjs]; simp
  · intro a h s s' c hok
    obtain ⟨argv, m, p, q, n, rest, hca, h0, h1, h2, himp, hc0, hobjs, hev⟩ :=
      uvProjectScript_ok_shape a h s s' c hok
    rw [hev]; simp [markerLines, stdoutLines]

/-- Fixture host for the concrete witness runs: importing any file yields one
object with 12 faces (10 for PLY), decimation halves the face count,
triangulation keeps it. -/
def wHost : Host :=
  { importOBJ := fun _ => [12],
    importPLY := fun _ => [10],
    modifierName := fun t =>
      match t with
      | .DECIMATE => "Decimate"
      | .TRIANGULATE => "Triangulate",
    defaultDecimateType := "COLLAPSE",
    defaultAngleLimit := ⟨0, 0⟩,
    decimate := fun _ _ n => n / 2,
    triangulate := fun n => n }

/-- Fixture argument vector: host flags, the separator, then module path,
input path, output path. -/
def wArgv : List String :=
  ["blender", "--background", "--python", "script.py", "--",
   "/modules", "input.obj", "output.obj"]

/-- Fixture starting scene: empty. -/
def wScene : Scene := Scene.mk [] none

/-- C1 witness: the Inspect fixture run succeeds and emits exactly the marker
line `FACE_COUNT_OUTPUT:12`. -/
theorem C1_marker_protocol_witness :
    (inspectScript wArgv wHost wScene).result
        = Except.ok (Scene.mk [freshObj 12] none, 0) ∧
    (∃ n : Nat,
      markerLines (inspectScript wArgv wHost wScene).events
        = ["FACE_COUNT_OUTPUT:" ++ toString n] ∧
      ((Scene.mk [freshObj 12] none).objs[0]?).map Obj.polygons = some n) :=
  ⟨by decide, C1_marker_protocol.1 wArgv wHost wScene (Scene.mk [freshObj 12] none) 0 (by decide)⟩

/-- Stdout lines of the Simplify fixture run (import 12 faces, decimate to 6,
triangulate keeps 6). -/
def c3Lines : List String := stdoutLines (simplifyScript wArgv wHost wScene).events

/-- C3 counterexample: on a concrete successful Simplify run the
before/after info line appears strictly BEFORE the marker line, so the claim
"marker first, then info line" is false on the code. -/
theorem C3_counterexample :
    "FACE_COUNT_OUTPUT:6" ∈ c3Lines ∧
    "Decimated mesh from 12 to 6 faces." ∈ c3Lines ∧
    c3Lines.indexOf "Decimated mesh from 12 to 6 faces."
      < c3Lines.indexOf "FACE_COUNT_OUTPUT:6" ∧
    ¬ (c3Lines.indexOf "FACE_COUNT_OUTPUT:6"
        < c3Lines.indexOf "Decimated mesh from 12 to 6 faces.") := by decide

/-- C3 (amended): in every successful Simplify run, after the new face count
is read the before/after info line is emitted first and the marker line
second, and both precede the OBJ export. -/
theorem C3_info_then_marker_before_export (a : List String) (h : Host)
    (s : Scene) (s' : Scene) (c : Nat)
    (hok : (simplifyScript a h s).result = Except.ok (s', c)) :
    ∃ (pre : List Event) (n0 n : Nat) (q : String),
      (simplifyScript a h s).events =
        pre ++
          [Event.out ("Decimated mesh from " ++ toString n0 ++ " to "
                       ++ toString n ++ " faces."),
           Event.out ("FACE_COUNT_OUTPUT:" ++ toString n),
           Event.exportOBJ q,
           Event.out ("Finished operation. Mesh can be found at " ++ q ++ ".")] ∧
      pre.filter isExportEvent = [] ∧
      (s'.objs[0]?).map Obj.polygons = some n := by
  obtain ⟨argv, m, p, q, n, rest, hca, h0, h1, h2, himp, hc0, hobjs, hev⟩ :=
    simplifyScript_ok_shape a h s s' c hok
  refine ⟨Event.pathAppend m ::
      ((delete_all_on_start s).1 ++
        [Event.importOBJ p,
         Event.setActive 0,
         Event.modifierAdd ModifierType.DECIMATE,
         Event.readModifiers [newModifier h ModifierType.DECIMATE],
         Event.modifierApply "DATA"
           { mtype := ModifierType.DECIMATE,
             name := h.modifierName ModifierType.DECIMATE,
             decimate_type := "DISSOLVE",
             angle_limit := simplifyAngleLimit },
         Event.modifierAdd ModifierType.TRIANGULATE,
         Event.readModifiers [newModifier h ModifierType.TRIANGULATE],
         Event.modifierApply "DATA" (newModifier h ModifierType.TRIANGULATE)]),
    n, h.triangulate (h.decimate "DISSOLVE" simplifyAngleLimit n), q, ?_, ?_, ?_⟩
  · rw [hev]; simp
  · simp [reset_filter_eq_nil s isExportEvent rfl rfl, isExportEvent]
  · rw [hobjs]; simp

/-- C3 witness: the amended ordering holds on the concrete Simplify fixture
run. -/
theorem C3_info_then_marker_before_export_witness :
    (simplifyScript wArgv wHost wScene).result
        = Except.ok (Scene.mk
            [Obj.mk 6 [Angle.zero, Angle.zero, Angle.zero] [] false] (some 0), 0) ∧
    (∃ (pre : List Event) (n0 n : Nat) (q : String),
      (simplifyScript wArgv wHost wScene).events =
        pre ++
          [Event.out ("Decimated mesh from " ++ toString n0 ++ " to "
                       ++ toString n ++ " faces."),
           Event.out ("FACE_COUNT_OUTPUT:" ++ toString n),
           Event.exportOBJ q,
           Event.out ("Finished operation. Mesh can be found at " ++ q ++ ".")] ∧
      pre.filter isExportEvent = [] ∧
      (((Scene.mk [Obj.mk 6 [Angle.zero, Angle.zero, Angle.zero] [] false]
          (some 0)).objs[0]?).map Obj.polygons = some n)) :=
  ⟨by decide,
   C3_info_then_marker_before_export wArgv wHost wScene
     (Scene.mk [Obj.mk 6 [Angle.zero, Angle.zero, Angle.zero] [] false] (some 0)) 0
     (by decide)⟩

/-- C4: every successful Simplify run performs exactly these four transform
events in this order and no other mesh transform: add a decimate modifier,
apply it permanently (as DATA) carrying `decimate_type = DISSOLVE` and
`angle_limit = 0.0872665`, add a triangulate modifier, apply it permanently
(as DATA). -/
theorem C4_two_transforms (a : List String) (h : Host) (s : Scene)
    (s' : Scene) (c : Nat)
    (hok : (simplifyScript a h s).result = Except.ok (s', c)) :
    (simplifyScript a h s).events.filter isTransformEvent =
      [Event.modifierAdd ModifierType.DECIMATE,
       Event.modifierApply "DATA"
         { mtype := ModifierType.DECIMATE,
           name := h.modifierName ModifierType.DECIMATE,
           decimate_type := "DISSOLVE",
           angle_limit := simplifyAngleLimit },
       Event.modifierAdd ModifierType.TRIANGULATE,
       Event.modifierApply "DATA" (newModifier h ModifierType.TRIANGULATE)] := by
  obtain ⟨argv, m, p, q, n, rest, hca, h0, h1, h2, himp, hc0, hobjs, hev⟩ :=
    simplifyScript_ok_shape a h s s' c hok
  rw [hev]
  simp [reset_filter_eq_nil s isTransformEvent rfl rfl, isTransformEvent]

/-- C4 witness: the transform-event sequence of the concrete Simplify
fixture run. -/
theorem C4_two_transforms_witness :
    (simplifyScript wArgv wHost wScene).result
        = Except.ok (Scene.mk
            [Obj.mk 6 [Angle.zero, Angle.zero, Angle.zero] [] false] (some 0), 0) ∧
    (simplifyScript wArgv wHost wScene).events.filter isTransformEvent =
      [Event.modifierAdd ModifierType.DECIMATE,
       Event.modifierApply "DATA"
         { mtype := ModifierType.DECIMATE,
           name := wHost.modifierName ModifierType.DECIMATE,
           decimate_type := "DISSOLVE",
           angle_limit := simplifyAngleLimit },
       Event.modifierAdd ModifierType.TRIANGULATE,
       Event.modifierApply "DATA" (newModifier wHost ModifierType.TRIANGULATE)] :=
  ⟨by decide,
   C4_two_transforms wArgv wHost wScene
     (Scene.mk [Obj.mk 6 [Angle.zero, Angle.zero, Angle.zero] [] false] (some 0)) 0
     (by decide)⟩

/-- C5: every successful Convert run sets `rotation_euler[0] = radians(-90)`
and `rotation_euler[2] = radians(180)` — hard-coded values — after emitting
the face-count marker and before the OBJ export, leaving object 0 with
orientation (−90°, 0°, 180°). -/
theorem C5_fixed_rotation (a : List String) (h : Host) (s : Scene)
    (s' : Scene) (c : Nat)
    (hok : (convertScript a h s).result = Except.ok (s', c)) :
    ∃ (module_path input_file_path output_file_path : String) (n : Nat),
      (convertScript a h s).events =
        Event.pathAppend module_path ::
          ((delete_all_on_start s).1 ++
            [Event.out ("Importing mesh from " ++ input_file_path ++ "."),
             Event.importPLY input_file_path,
             Event.out ("FACE_COUNT_OUTPUT:" ++ toString n),
             Event.out "Rotating mesh.",
             Event.rotSet 0 (Angle.radians (-90)),
             Event.rotSet 2 (Angle.radians 180),
             Event.out ("Exporting mesh to " ++ output_file_path ++ "."),
             Event.exportOBJ output_file_path,
             Event.out ("Finished operation. Mesh can be found at "
                         ++ output_file_path ++ ".")]) ∧
      (s'.objs[0]?).map Obj.rotation_euler
        = some [Angle.radians (-90), Angle.zero, Angle.radians 180] := by
  obtain ⟨argv, m, p, q, n, rest, hca, h0, h1, h2, himp, hc0, hobjs, hev⟩ :=
    convertScript_ok_shape a h s s' c hok
  refine ⟨m, p, q, n, hev, ?_⟩
  rw [hobjs]; simp

/-- C5 witness: the rotation events and final orientation of the concrete
Convert fixture run. -/
theorem C5_fixed_rotation_witness :
    (convertScript wArgv wHost wScene).result
        = Except.ok (Scene.mk
            [Obj.mk 10 [Angle.radians (-90), Angle.zero, Angle.radians 180] [] false]
            none, 0) ∧
    (∃ (module_path input_file_path output_file_path : String) (n : Nat),
      (convertScript wArgv wHost wScene).events =
        Event.pathAppend module_path ::
          ((delete_all_on_start wScene).1 ++
            [Event.out ("Importing mesh from " ++ input_file_path ++ "."),
             Event.importPLY input_file_path,
             Event.out ("FACE_COUNT_OUTPUT:" ++ toString n),
             Event.out "Rotating mesh.",
             Event.rotSet 0 (Angle.radians (-90)),
             Event.rotSet 2 (Angle.radians 180),
             Event.out ("Exporting mesh to " ++ output_file_path ++ "."),
             Event.exportOBJ output_file_path,
             Event.out ("Finished operation. Mesh can be found at "
                         ++ output_file_path ++ ".")]) ∧
      (((Scene.mk
            [Obj.mk 10 [Angle.radians (-90), Angle.zero, Angle.radians 180] [] false]
            none).objs[0]?).map Obj.rotation_euler
        = some [Angle.radians (-90), Angle.zero, Angle.radians 180])) :=
  ⟨by decide,
   C5_fixed_rotation wArgv wHost wScene
     (Scene.mk
       [Obj.mk 10 [Angle.radians (-90), Angle.zero, Angle.radians 180] [] false]
       none) 0
     (by decide)⟩

/-- C6: every connector slices its own arguments strictly after the first
occurrence of the separator token `--` and reads them positionally — element
0 is the module search path (`sys.path.append`), element 1 the input file
path (import), element 2 the output file path (export) for Convert, Simplify
and UV-Unwrap; Inspect reads no output path and exports nothing. -/
theorem C6_argument_convention :
    (∀ a : List String, "--" ∈ a →
      ∃ i, a[i]? = some "--" ∧ (∀ j, j < i → a[j]? ≠ some "--") ∧
        connectorArgv a = some (a.drop (i + 1))) ∧
    (∀ a h s s' c, (inspectScript a h s).result = Except.ok (s', c) →
      ∃ argv m p, connectorArgv a = some argv ∧
        argv[0]? = some m ∧ argv[1]? = some p ∧
        (inspectScript a h s).events.filter isPathAppendEvent
          = [Event.pathAppend m] ∧
        (inspectScript a h s).events.filter isImportEvent
          = [Event.importOBJ p] ∧
        (inspectScript a h s).events.filter isExportEvent = []) ∧
    (∀ a h s s' c, (convertScript a h s).result = Except.ok (s', c) →
      ∃ argv m p q, connectorArgv a = some argv ∧
        argv[0]? = some m ∧ argv[1]? = some p ∧ argv[2]? = some q ∧
        (convertScript a h s).events.filter isPathAppendEvent
          = [Event.pathAppend m] ∧
        (convertScript a h s).events.filter isImportEvent
          = [Event.importPLY p] ∧
        (convertScript a h s).events.filter isExportEvent
          = [Event.exportOBJ q]) ∧
    (∀ a h s s' c, (simplifyScript a h s).result = Except.ok (s', c) →
      ∃ argv m p q, connectorArgv a = some argv ∧
        argv[0]? = some m ∧ argv[1]? = some p ∧ argv[2]? = some q ∧
        (simplifyScript a h s).events.filter isPathAppendEvent
          = [Event.pathAppend m] ∧
        (simplifyScript a h s).events.filter isImportEvent
          = [Event.importOBJ p] ∧
        (simplifyScript a h s).events.filter isExportEvent
          = [Event.exportOBJ q]) ∧
    (∀ a h s s' c, (uvProjectScript a h s).result = Except.ok (s', c) →
      ∃ argv m p q, connectorArgv a = some argv ∧
        argv[0]? = some m ∧ argv[1]? = some p ∧ argv[2]? = some q ∧
        (uvProjectScript a h s).events.filter isPathAppendEvent
          = [Event.pathAppend m] ∧
        (uvProjectScript a h s).events.filter isImportEvent
          = [Event.importOBJ p] ∧
        (uvProjectScript a h s).events.filter isExportEvent
          = [Event.exportOBJ q]) := by
  refine ⟨?_, ?_, ?_, ?_, ?_⟩
  · intro a hmem
    obtain ⟨k, hf, hg, hlt⟩ := findIdx?_sep_spec a 0 hmem
    exact ⟨k, hg, hlt, by simp [connectorArgv, hf]⟩
  · intro a h s s' c hok
    obtain ⟨argv, m, p, n, rest, hca, h0, h1, himp, hc0, hobjs, hev⟩ :=
      inspectScript_ok_shape a h s s' c hok
    refine ⟨argv, m, p, hca, h0, h1, ?_, ?_, ?_⟩ <;> rw [hev] <;>
      simp [reset_filter_eq_nil s isPathAppendEvent rfl rfl,
        reset_filter_eq_nil s isImportEvent rfl rfl,
        reset_filter_eq_nil s isExportEvent rfl rfl,
        isPathAppendEvent, isImportEvent, isExportEvent]
  · intro a h s s' c hok
    obtain ⟨argv, m, p, q, n, rest, hca, h0, h1, h2, himp, hc0, hobjs, hev⟩ :=
      convertScript_ok_shape a h s s' c hok
    refine ⟨argv, m, p, q, hca, h0, h1, h2, ?_, ?_, ?_⟩ <;> rw [hev] <;>
      simp [reset_filter_eq_nil s isPathAppendEvent rfl rfl,
        reset_filter_eq_nil s isImportEvent rfl rfl,
        reset_filter_eq_nil s isExportEvent rfl rfl,
        isPathAppendEvent, isImportEvent, isExportEvent]
  · intro a h s s' c hok
    obtain ⟨argv, m, p, q, n, rest, hca, h0, h1, h2, himp, hc0, hobjs, hev⟩ :=
      simplifyScript_ok_shape a h s s' c hok
    refine ⟨argv, m, p, q, hca, h0, h1, h2, ?_, ?_, ?_⟩ <;> rw [hev] <;>
      simp [reset_filter_eq_nil s isPathAppendEvent rfl rfl,
        reset_filter_eq_nil s isImportEvent rfl rfl,
        reset_filter_eq_nil s isExportEvent rfl rfl,
        isPathAppendEvent, isImportEvent, isExportEvent]
  · intro a h s s' c hok
    obtain ⟨argv, m, p, q, n, rest, hca, h0, h1, h2, himp, hc0, hobjs, hev⟩ :=
      uvProjectScript_ok_shape a h s s' c hok
    refine ⟨argv, m, p, q, hca, h0, h1, h2, ?_, ?_, ?_⟩ <;> rw [hev] <;>
      simp [reset_filter_eq_nil s isPathAppendEvent rfl rfl,
        reset_filter_eq_nil s isImportEvent rfl rfl,
        reset_filter_eq_nil s isExportEvent rfl rfl,
        isPathAppendEvent, isImportEvent, isExportEvent]

/-- C6 witness: on the fixture argument vector the separator is at index 4
and the slice after it is the three positional arguments. -/
theorem C6_argument_convention_witness :
    ("--" ∈ wArgv) ∧
    (∃ i, wArgv[i]? = some "--" ∧ (∀ j, j < i → wArgv[j]? ≠ some "--") ∧
      connectorArgv wArgv = some (wArgv.drop (i + 1))) :=
  ⟨by decide, C6_argument_convention.1 wArgv (by decide)⟩

/-- C7: with a separator present but the post-separator slice shorter than
the connector's required positional count (2 for Inspect, 3 for the others),
every connector dies with an IndexError during argument handling, before any
of the import, transform or export events and before any stdout line. -/
theorem C7_short_argv_fails_early :
    (∀ a h s argv, connectorArgv a = some argv → argv.length < 2 →
      (inspectScript a h s).result = Except.error PyErr.indexError ∧
      (inspectScript a h s).events.filter
        (fun e => isImportEvent e || isExportEvent e || isTransformEvent e) = [] ∧
      stdoutLines (inspectScript a h s).events = []) ∧
    (∀ a h s argv, connectorArgv a = some argv → argv.length < 3 →
      (convertScript a h s).result = Except.error PyErr.indexError ∧
      (convertScript a h s).events.filter
        (fun e => isImportEvent e || isExportEvent e || isTransformEvent e) = [] ∧
      stdoutLines (convertScript a h s).events = []) ∧
    (∀ a h s argv, connectorArgv a = some argv → argv.length < 3 →
      (simplifyScript a h s).result = Except.error PyErr.indexError ∧
      (simplifyScript a h s).events.filter
        (fun e => isImportEvent e || isExportEvent e || isTransformEvent e) = [] ∧
      stdoutLines (simplifyScript a h s).events = []) ∧
    (∀ a h s argv, connectorArgv a = some argv → argv.length < 3 →
      (uvProjectScript a h s).result = Except.error PyErr.indexError ∧
      (uvProjectScript a h s).events.filter
        (fun e => isImportEvent e || isExportEvent e || isTransformEvent e) = [] ∧
      stdoutLines (uvProjectScript a h s).events = []) := by
  refine ⟨?_, ?_, ?_, ?_⟩
  · intro a h s argv hca hlen
    rcases argv with _ | ⟨m, argv1⟩
    · simp [inspectScript, hca, stdoutLines]
    · rcases argv1 with _ | ⟨p, argv2⟩
      · simp [inspectScript, hca, stdoutLines, isImportEvent, isExportEvent,
          isTransformEvent]
      · exfalso; simp at hlen; omega
  · intro a h s argv hca hlen
    rcases argv with _ | ⟨m, argv1⟩
    · simp [convertScript, hca, stdoutLines]
    · rcases argv1 with _ | ⟨p, argv2⟩
      · simp [convertScript, hca, stdoutLines, isImportEvent, isExportEvent,
          isTransformEvent]
      · rcases argv2 with _ | ⟨q, argv3⟩
        · simp [convertScript, hca, stdoutLines, isImportEvent, isExportEvent,
            isTransformEvent]
        · exfalso; simp at hlen; omega
  · intro a h s argv hca hlen
    rcases argv with _ | ⟨m, argv1⟩
    · simp [simplifyScript, hca, stdoutLines]
    · rcases argv1 with _ | ⟨p, argv2⟩
      · simp [simplifyScript, hca, stdoutLines, isImportEvent, isExportEvent,
          isTransformEvent]
      · rcases argv2 with _ | ⟨q, argv3⟩
        · simp [simplifyScript, hca, stdoutLines, isImportEvent, isExportEvent,
            isTransformEvent]
        · exfalso; simp at hlen; omega
  · intro a h s argv hca hlen
    rcases argv with _ | ⟨m, argv1⟩
    · simp [uvProjectScript, hca, stdoutLines]
    · rcases argv1 with _ | ⟨p, argv2⟩
      · simp [uvProjectScript, hca, stdoutLines, isImportEvent, isExportEvent,
          isTransformEvent]
      · rcases argv2 with _ | ⟨q, argv3⟩
        · simp [uvProjectScript, hca, stdoutLines, isImportEvent, isExportEvent,
            isTransformEvent]
        · exfalso; simp at hlen; omega

/-- Fixture argument vector with only one post-separator argument. -/
def c7Argv : List String := ["blender", "--", "/modules"]

/-- C7 witness: the Inspect connector on a one-argument slice dies with an
IndexError having performed no import, transform, export or stdout write. -/
theorem C7_short_argv_fails_early_witness :
    (connectorArgv c7Argv = some ["/modules"]) ∧
    (["/modules"] : List String).length < 2 ∧
    ((inspectScript c7Argv wHost wScene).result = Except.error PyErr.indexError ∧
      (inspectScript c7Argv wHost wScene).events.filter
        (fun e => isImportEvent e || isExportEvent e || isTransformEvent e) = [] ∧
      stdoutLines (inspectScript c7Argv wHost wScene).events = []) :=
  ⟨by decide, by decide,
   C7_short_argv_fails_early.1 c7Argv wHost wScene ["/modules"] (by decide) (by decide)⟩

/-- C8: the Inspect connector never performs a file-writing (export)
operation on any run, and its behaviour is a function of the first two
post-separator arguments only — it never reads an output-path argument. -/
theorem C8_inspect_no_file_output :
    (∀ a h s, (inspectScript a h s).events.filter isExportEvent = []) ∧
    (∀ a1 a2 h s,
      (connectorArgv a1).map (fun l => l.take 2)
        = (connectorArgv a2).map (fun l => l.take 2) →
      inspectScript a1 h s = inspectScript a2 h s) := by
  constructor
  · intro a h s
    cases hc : connectorArgv a with
    | none => simp [inspectScript, hc]
    | some argv =>
    cases h0 : argv[0]? with
    | none => simp [inspectScript, hc, h0]
    | some m =>
    cases h1 : argv[1]? with
    | none => simp [inspectScript, hc, h0, h1, isExportEvent]
    | some p =>
    cases himp : h.importOBJ p with
    | nil =>
      simp [inspectScript, hc, h0, h1, import_scene_obj, himp, isExportEvent,
        reset_filter_eq_nil s isExportEvent rfl rfl]
    | cons n rest =>
      simp [inspectScript, hc, h0, h1, import_scene_obj, himp, isExportEvent,
        print_face_count, print_out,
        reset_filter_eq_nil s isExportEvent rfl rfl]
  · intro a1 a2 h s htake
    cases hc1 : connectorArgv a1 with
    | none =>
      cases hc2 : connectorArgv a2 with
      | none => simp [inspectScript, hc1, hc2]
      | some l2 => rw [hc1, hc2] at htake; simp at htake
    | some l1 =>
    cases hc2 : connectorArgv a2 with
    | none => rw [hc1, hc2] at htake; simp at htake
    | some l2 =>
    rw [hc1, hc2] at htake
    simp at htake
    have h0eq : l1[0]? = l2[0]? := by
      have h3 := congrArg (fun l => l[0]?) htake
      simpa [List.getElem?_take] using h3
    have h1eq : l1[1]? = l2[1]? := by
      have h3 := congrArg (fun l => l[1]?) htake
      simpa [List.getElem?_take] using h3
    simp only [inspectScript, hc1, hc2]
    rw [h0eq, h1eq]

/-- C8 witness: Inspect ignores everything beyond the first two
post-separator arguments. -/
theorem C8_inspect_no_file_output_witness :
    ((connectorArgv wArgv).map (fun l => l.take 2)
      = (connectorArgv (wArgv ++ ["extra"])).map (fun l => l.take 2)) ∧
    inspectScript wArgv wHost wScene
      = inspectScript (wArgv ++ ["extra"]) wHost wScene :=
  ⟨by decide,
   C8_inspect_no_file_output.2 wArgv (wArgv ++ ["extra"]) wHost wScene (by decide)⟩

/-- C9: Inspect is deterministic in its input — its stdout lines (hence the
reported face count) and its success/failure status do not depend on the
starting scene, so two runs over the same file with the same host import
behaviour report the same face count. -/
theorem C9_inspect_deterministic (a : List String) (h : Host) (s1 s2 : Scene) :
    stdoutLines (inspectScript a h s1).events
      = stdoutLines (inspectScript a h s2).events ∧
    resultOk (inspectScript a h s1).result
      = resultOk (inspectScript a h s2).result := by
  cases hc : connectorArgv a with
  | none => simp [inspectScript, hc]
  | some argv =>
  cases h0 : argv[0]? with
  | none => simp [inspectScript, hc, h0]
  | some m =>
  cases h1 : argv[1]? with
  | none => simp [inspectScript, hc, h0, h1, stdoutLines]
  | some p =>
  cases himp : h.importOBJ p with
  | nil =>
    simp [inspectScript, hc, h0, h1, import_scene_obj, himp, stdoutLines, resultOk]
  | cons n rest =>
    simp [inspectScript, hc, h0, h1, import_scene_obj, himp, stdoutLines, resultOk,
      print_face_count, print_out]

/-- C10: in every successful Simplify run, each of the two reads of
`obj.modifiers[0]` observes a one-element modifier stack whose sole entry is
the modifier added by the immediately preceding `modifier_add` (first the
fresh decimate modifier, then the fresh triangulate modifier) — never a stale
entry. -/
theorem C10_modifiers_index_reads (a : List String) (h : Host) (s : Scene)
    (s' : Scene) (c : Nat)
    (hok : (simplifyScript a h s).result = Except.ok (s', c)) :
    (simplifyScript a h s).events.filter isReadModifiersEvent =
      [Event.readModifiers [newModifier h ModifierType.DECIMATE],
       Event.readModifiers [newModifier h ModifierType.TRIANGULATE]] := by
  obtain ⟨argv, m, p, q, n, rest, hca, h0, h1, h2, himp, hc0, hobjs, hev⟩ :=
    simplifyScript_ok_shape a h s s' c hok
  rw [hev]
  simp [reset_filter_eq_nil s isReadModifiersEvent rfl rfl, isReadModifiersEvent]

/-- C10 witness: the two `modifiers[0]` observations of the concrete Simplify
fixture run. -/
theorem C10_modifiers_index_reads_witness :
    (simplifyScript wArgv wHost wScene).result
        = Except.ok (Scene.mk
            [Obj.mk 6 [Angle.zero, Angle.zero, Angle.zero] [] false] (some 0), 0) ∧
    (simplifyScript wArgv wHost wScene).events.filter isReadModifiersEvent =
      [Event.readModifiers [newModifier wHost ModifierType.DECIMATE],
       Event.readModifiers [newModifier wHost ModifierType.TRIANGULATE]] :=
  ⟨by decide,
   C10_modifiers_index_reads wArgv wHost wScene
     (Scene.mk [Obj.mk 6 [Angle.zero, Angle.zero, Angle.zero] [] false] (some 0)) 0
     (by decide)⟩

end Colibri
